import Mathlib

/-!
Verification of the webhook orchestration core of a pull-request-to-thread
bridge. The central function is `PullRequestHandler` in
`src/app/api/handlers/pull_request.go`: it classifies an inbound GitHub
webhook envelope by its `"action"` discriminator, dispatches Slack messages,
and maintains a DynamoDB mapping from pull-request identity to Slack thread
timestamp. The handler is embedded shallowly as a pure function over an
explicit store, an oracle environment for the external Slack/DynamoDB calls,
and a trace of the calls the handler makes.
-/

/-- A requested reviewer, as decoded from the webhook payload
(`reviewer.Login` in the source). -/
structure Reviewer where
  login : String
deriving DecidableEq, Repr

/-- The pull-request object inside an `opened` payload: its stable numeric
identity (`input.PullRequest.ID`) and the reviewers requested at open time
(`input.PullRequest.RequestedReviewers`). -/
structure PullRequestInfo where
  id : Int
  requestedReviewers : List Reviewer
deriving DecidableEq, Repr

/-- The typed payload of an `opened` event (`types.OpenPullRequest`):
the pull-request number (`input.Number`) and the nested pull request. -/
structure OpenPullRequest where
  number : Int
  pullRequest : PullRequestInfo
deriving DecidableEq, Repr

/-- The typed payload of a `review_requested` event
(`types.ReviewRequestPullRequest`): the identity of the pull request the
event refers back to, and the single requested reviewer
(`input.RequestedReviewer`). -/
structure ReviewRequestPullRequest where
  pullRequestId : Int
  requestedReviewer : Reviewer
deriving DecidableEq, Repr

/-- The typed payload of a `created` (comment) event
(`types.CommentPullRequest`): the identity of the pull request the comment
belongs to. -/
structure CommentPullRequest where
  pullRequestId : Int
deriving DecidableEq, Repr

/-- The typed payload of a `closed` event (`types.ClosedPullRequest`):
the identity of the pull request being closed. -/
structure ClosedPullRequest where
  pullRequestId : Int
deriving DecidableEq, Repr

/-- A row of the DynamoDB table (`types.TablePullRequestData`): the
partition key `ID` (the stringified pull-request identity), the
pull-request number, and the Slack thread timestamp. -/
structure TablePullRequestData where
  id : String
  pullRequestId : Int
  slackTimeStamp : String
deriving DecidableEq, Repr

/-- The correlation store state: the rows of the DynamoDB table. -/
abbrev Store := List TablePullRequestData

/-- The correlation key: `fmt.Sprintf("%d", id)` in the source. -/
def correlationKey (id : Int) : String := toString id

/-- Modelled from the spec: the Correlation Store backend read
(`db.GetSlackTimeStampReviewRequest`, `db.GetSlackTimeStampIssue`,
`db.GetSlackTimeStampClose` are repo code outside `src/`); per the spec
interface `Get(key) -> ThreadBinding | NotFound`, it returns the stored
Slack timestamp for a correlation key, or nothing when the key is absent. -/
def storeGet (s : Store) (key : String) : Option String :=
  (s.find? (fun item => item.id == key)).map (fun item => item.slackTimeStamp)

/-- Modelled from the spec: the Correlation Store backend write
(`db.InsertItem` is repo code outside `src/`); per the spec,
`Put(binding)` is an unconditional upsert keyed by the correlation key. -/
def storePut (s : Store) (item : TablePullRequestData) : Store :=
  match s with
  | [] => [item]
  | x :: xs => if x.id == item.id then item :: xs else x :: storePut xs item

/-- One outbound Slack call made by the handler, recorded with the
arguments the source passes. -/
inductive SlackCall where
  | sendMessage (input : OpenPullRequest)
  | sendThreadReviewers (timeStamp : String) (reviewers : List String)
  | sendThreadComment (timeStamp : String) (input : CommentPullRequest)
  | sendThreadClosed (timeStamp : String)
deriving DecidableEq, Repr

/-- One correlation-store operation performed by the handler. -/
inductive StoreOp where
  | get (key : String)
  | put (item : TablePullRequestData)
deriving DecidableEq, Repr

/-- The HTTP outcome of a request: a response with a status code and body,
or `fatal` for the paths where the source calls `log.Fatal`, which
terminates the whole process without writing any HTTP response. -/
inductive HttpResult where
  | response (status : Nat) (body : String)
  | fatal
deriving DecidableEq, Repr

/-- Modelled from the spec: the outcomes of the external collaborators
(the `slack` package and `db.InsertItem` are repo code outside `src/`).
Each field gives the result the external call would return; per the spec
the Dispatcher performs blocking outbound calls that either succeed or
fail terminally, and the store write either succeeds or fails. -/
structure SlackEnv where
  sendMessage : OpenPullRequest → Except Unit String
  sendThreadReviewers : String → List String → Except Unit Unit
  sendThreadComment : String → CommentPullRequest → Except Unit Unit
  sendThreadClosed : String → Except Unit Unit
  insertOk : TablePullRequestData → Bool

/-- The request body after the two JSON stages the source performs:
`malformed` when the top-level `json.Unmarshal` into a raw map fails
(line 45); otherwise an envelope whose `action` is the discriminator
(`none` models the "action" key being absent or not a JSON string, both of
which make the unmarshal at line 55 fail), together with the result of the
per-branch typed unmarshal for each variant (`none` models a decode
failure in that branch). -/
inductive ParsedBody where
  | malformed
  | envelope (action : Option String) (openPayload : Option OpenPullRequest)
      (reviewPayload : Option ReviewRequestPullRequest)
      (commentPayload : Option CommentPullRequest)
      (closedPayload : Option ClosedPullRequest)
deriving DecidableEq, Repr

/-- Everything a handler run produces: the HTTP outcome, the Slack calls
made (in order), the store operations attempted (in order), and the final
store state. -/
structure HandlerResult where
  http : HttpResult
  slackCalls : List SlackCall
  storeOps : List StoreOp
  store : Store
deriving DecidableEq, Repr

/-- The success response body written at lines 207-218 of the source. -/
def webhookDoneBody : String := "\x7b\"message\":\"Webhook done.\"\x7d"

/-- Lines 95-109 of the source: build the table item from the opened
payload (`ID` = stringified `PullRequest.ID`, `PullRequestId` = `Number`,
`SlackTimeStamp` = the timestamp returned by the top-level send) and insert
it; on insert failure answer 500, otherwise fall through to the 200
response. -/
def insertAndRespond (env : SlackEnv) (store : Store) (input : OpenPullRequest)
    (timeStamp : String) (calls : List SlackCall) : HandlerResult :=
  let item : TablePullRequestData :=
    ⟨correlationKey input.pullRequest.id, input.number, timeStamp⟩
  if env.insertOk item then
    ⟨HttpResult.response 200 webhookDoneBody, calls, [StoreOp.put item], storePut store item⟩
  else
    ⟨HttpResult.response 500 "Internal Server Error", calls, [StoreOp.put item], store⟩

/-- Lines 59-110 of the source: the `opened` branch. Send the top-level
message; on success, if any reviewers were requested, send one threaded
follow-up carrying all their logins, and only then persist the binding. -/
def handleOpened (env : SlackEnv) (store : Store) (input : OpenPullRequest) : HandlerResult :=
  match env.sendMessage input with
  | Except.error _ =>
      ⟨HttpResult.response 500 "Internal Server Error", [SlackCall.sendMessage input], [], store⟩
  | Except.ok timeStamp =>
      if input.pullRequest.requestedReviewers.length > 0 then
        let reviewers := input.pullRequest.requestedReviewers.map Reviewer.login
        match env.sendThreadReviewers timeStamp reviewers with
        | Except.error _ =>
            ⟨HttpResult.response 500 "Internal Server Error",
              [SlackCall.sendMessage input, SlackCall.sendThreadReviewers timeStamp reviewers],
              [], store⟩
        | Except.ok _ =>
            insertAndRespond env store input timeStamp
              [SlackCall.sendMessage input, SlackCall.sendThreadReviewers timeStamp reviewers]
      else
        insertAndRespond env store input timeStamp [SlackCall.sendMessage input]

/-- Lines 112-142 of the source: the `review_requested` branch. Look up the
stored timestamp for the pull request; on a miss answer 500; on a hit send
one threaded reviewer message whose list holds exactly the single requested
reviewer's login. -/
def handleReviewRequested (env : SlackEnv) (store : Store)
    (input : ReviewRequestPullRequest) : HandlerResult :=
  let key := correlationKey input.pullRequestId
  match storeGet store key with
  | none =>
      ⟨HttpResult.response 500 "Internal Server Error", [], [StoreOp.get key], store⟩
  | some timeStamp =>
      let reviewers := [input.requestedReviewer.login]
      match env.sendThreadReviewers timeStamp reviewers with
      | Except.error _ =>
          ⟨HttpResult.response 500 "Internal Server Error",
            [SlackCall.sendThreadReviewers timeStamp reviewers], [StoreOp.get key], store⟩
      | Except.ok _ =>
          ⟨HttpResult.response 200 webhookDoneBody,
            [SlackCall.sendThreadReviewers timeStamp reviewers], [StoreOp.get key], store⟩

/-- Lines 144-174 of the source: the `created` (comment) branch. Look up
the stored timestamp; on a miss answer 500; on a hit send one threaded
comment message. -/
def handleCommentCreated (env : SlackEnv) (store : Store)
    (input : CommentPullRequest) : HandlerResult :=
  let key := correlationKey input.pullRequestId
  match storeGet store key with
  | none =>
      ⟨HttpResult.response 500 "Internal Server Error", [], [StoreOp.get key], store⟩
  | some timeStamp =>
      match env.sendThreadComment timeStamp input with
      | Except.error _ =>
          ⟨HttpResult.response 500 "Internal Server Error",
            [SlackCall.sendThreadComment timeStamp input], [StoreOp.get key], store⟩
      | Except.ok _ =>
          ⟨HttpResult.response 200 webhookDoneBody,
            [SlackCall.sendThreadComment timeStamp input], [StoreOp.get key], store⟩

/-- Lines 176-205 of the source: the `closed` branch. Look up the stored
timestamp; on a miss answer 500; on a hit send one threaded closed
message. -/
def handleClosed (env : SlackEnv) (store : Store)
    (input : ClosedPullRequest) : HandlerResult :=
  let key := correlationKey input.pullRequestId
  match storeGet store key with
  | none =>
      ⟨HttpResult.response 500 "Internal Server Error", [], [StoreOp.get key], store⟩
  | some timeStamp =>
      match env.sendThreadClosed timeStamp with
      | Except.error _ =>
          ⟨HttpResult.response 500 "Internal Server Error",
            [SlackCall.sendThreadClosed timeStamp], [StoreOp.get key], store⟩
      | Except.ok _ =>
          ⟨HttpResult.response 200 webhookDoneBody,
            [SlackCall.sendThreadClosed timeStamp], [StoreOp.get key], store⟩

/-- The embedding of `PullRequestHandler` (pull_request.go, lines 19-219).
A malformed top-level body answers 400 (line 49); a missing or non-string
`"action"` hits `log.Fatal` (line 56), modelled as `HttpResult.fatal`;
otherwise the four action branches run in sequence (their conditions are
mutually exclusive string equalities, so this is the if-chain of the
source), each branch either returning early on failure or falling through
to the 200 `Webhook done.` response; an unmatched action falls straight
through to that response. A per-branch typed unmarshal failure answers
400. -/
def pullRequestHandler (env : SlackEnv) (store : Store) (body : ParsedBody) : HandlerResult :=
  match body with
  | ParsedBody.malformed =>
      ⟨HttpResult.response 400 "Bad Request", [], [], store⟩
  | ParsedBody.envelope action openPayload reviewPayload commentPayload closedPayload =>
      match action with
      | none => ⟨HttpResult.fatal, [], [], store⟩
      | some a =>
          if a = "opened" then
            match openPayload with
            | none => ⟨HttpResult.response 400 "Bad Request", [], [], store⟩
            | some input => handleOpened env store input
          else if a = "review_requested" then
            match reviewPayload with
            | none => ⟨HttpResult.response 400 "Bad Request", [], [], store⟩
            | some input => handleReviewRequested env store input
          else if a = "created" then
            match commentPayload with
            | none => ⟨HttpResult.response 400 "Bad Request", [], [], store⟩
            | some input => handleCommentCreated env store input
          else if a = "closed" then
            match closedPayload with
            | none => ⟨HttpResult.response 400 "Bad Request", [], [], store⟩
            | some input => handleClosed env store input
          else
            ⟨HttpResult.response 200 webhookDoneBody, [], [], store⟩

/-- A Continuing event: one of the three variants the Thread Resolver
classifies as continuing an existing thread. -/
inductive ContinuingEvent where
  | reviewRequested (input : ReviewRequestPullRequest)
  | commentCreated (input : CommentPullRequest)
  | prClosed (input : ClosedPullRequest)
deriving DecidableEq, Repr

/-- The envelope carrying a Continuing event, with the discriminator the
source matches for that variant. -/
def ContinuingEvent.toBody : ContinuingEvent → ParsedBody
  | ContinuingEvent.reviewRequested input =>
      ParsedBody.envelope (some "review_requested") none (some input) none none
  | ContinuingEvent.commentCreated input =>
      ParsedBody.envelope (some "created") none none (some input) none
  | ContinuingEvent.prClosed input =>
      ParsedBody.envelope (some "closed") none none none (some input)

/-- The correlation key a Continuing event resolves through. -/
def ContinuingEvent.key : ContinuingEvent → String
  | ContinuingEvent.reviewRequested input => correlationKey input.pullRequestId
  | ContinuingEvent.commentCreated input => correlationKey input.pullRequestId
  | ContinuingEvent.prClosed input => correlationKey input.pullRequestId

/-- The threaded reply the handler sends for a Continuing event once the
thread handle is resolved. -/
def ContinuingEvent.reply : ContinuingEvent → String → SlackCall
  | ContinuingEvent.reviewRequested input, timeStamp =>
      SlackCall.sendThreadReviewers timeStamp [input.requestedReviewer.login]
  | ContinuingEvent.commentCreated input, timeStamp =>
      SlackCall.sendThreadComment timeStamp input
  | ContinuingEvent.prClosed _, timeStamp =>
      SlackCall.sendThreadClosed timeStamp

/-- A sample environment in which every external call succeeds and the
top-level send returns timestamp `ts0`. -/
def sampleEnv : SlackEnv :=
  ⟨fun _ => Except.ok "ts0", fun _ _ => Except.ok (), fun _ _ => Except.ok (),
    fun _ => Except.ok (), fun _ => true⟩

/-- A sample environment in which the threaded reviewers follow-up fails
and everything else succeeds. -/
def failReviewersEnv : SlackEnv :=
  ⟨fun _ => Except.ok "ts0", fun _ _ => Except.error (), fun _ _ => Except.ok (),
    fun _ => Except.ok (), fun _ => true⟩

/-- A sample environment in which the store insert fails and every Slack
call succeeds. -/
def failInsertEnv : SlackEnv :=
  ⟨fun _ => Except.ok "ts0", fun _ _ => Except.ok (), fun _ _ => Except.ok (),
    fun _ => Except.ok (), fun _ => false⟩

/-- A sample opened payload with no requested reviewers. -/
def sampleOpenInput : OpenPullRequest := ⟨7, ⟨42, []⟩⟩

/-- A sample opened payload with two requested reviewers. -/
def sampleOpenInputReviewers : OpenPullRequest := ⟨7, ⟨42, [⟨"alice"⟩, ⟨"bob"⟩]⟩⟩

/-- A sample review-requested payload referring back to pull request 42. -/
def sampleReviewInput : ReviewRequestPullRequest := ⟨42, ⟨"carol"⟩⟩

/-- A sample comment payload referring back to pull request 42. -/
def sampleCommentInput : CommentPullRequest := ⟨42⟩

/-- A sample closed payload referring back to pull request 42. -/
def sampleClosedInput : ClosedPullRequest := ⟨42⟩

/-- A sample store binding pull request 42 to thread timestamp 111.222. -/
def sampleStore : Store := [⟨"42", 7, "111.222"⟩]

/-- Reading back the key just upserted returns the upserted row's
timestamp, whatever the prior store contents. -/
theorem storeGet_storePut (s : Store) (item : TablePullRequestData) :
    storeGet (storePut s item) item.id = some item.slackTimeStamp := by
  induction s with
  | nil => simp [storeGet, storePut, List.find?]
  | cons x xs ih =>
      cases hb : x.id == item.id with
      | true => simp [storePut, storeGet, List.find?, hb]
      | false => simpa [storePut, storeGet, List.find?, hb] using ih

/-- Any Continuing event whose key resolves makes exactly the matching
threaded reply call, performs exactly one store read, and leaves the store
unchanged, whether or not the reply call itself succeeds. -/
theorem continuing_found_run (env : SlackEnv) (store : Store) (e : ContinuingEvent)
    (ts : String) (h : storeGet store e.key = some ts) :
    (pullRequestHandler env store e.toBody).slackCalls = [e.reply ts] ∧
    (pullRequestHandler env store e.toBody).storeOps = [StoreOp.get e.key] ∧
    (pullRequestHandler env store e.toBody).store = store := by
  cases e with
  | reviewRequested input =>
      simp only [ContinuingEvent.key] at h
      cases hsend : env.sendThreadReviewers ts [input.requestedReviewer.login] <;>
        simp [ContinuingEvent.toBody, ContinuingEvent.key, ContinuingEvent.reply,
          pullRequestHandler, handleReviewRequested, h, hsend]
  | commentCreated input =>
      simp only [ContinuingEvent.key] at h
      cases hsend : env.sendThreadComment ts input <;>
        simp [ContinuingEvent.toBody, ContinuingEvent.key, ContinuingEvent.reply,
          pullRequestHandler, handleCommentCreated, h, hsend]
  | prClosed input =>
      simp only [ContinuingEvent.key] at h
      cases hsend : env.sendThreadClosed ts <;>
        simp [ContinuingEvent.toBody, ContinuingEvent.key, ContinuingEvent.reply,
          pullRequestHandler, handleClosed, h, hsend]

/-- Any Continuing event whose key does not resolve answers 500 after a
single store read, with no Slack call and the store unchanged. -/
theorem continuing_notfound_run (env : SlackEnv) (store : Store) (e : ContinuingEvent)
    (h : storeGet store e.key = none) :
    pullRequestHandler env store e.toBody =
      ⟨HttpResult.response 500 "Internal Server Error", [], [StoreOp.get e.key], store⟩ := by
  cases e with
  | reviewRequested input =>
      simp only [ContinuingEvent.key] at h
      simp [ContinuingEvent.toBody, ContinuingEvent.key,
        pullRequestHandler, handleReviewRequested, h]
  | commentCreated input =>
      simp only [ContinuingEvent.key] at h
      simp [ContinuingEvent.toBody, ContinuingEvent.key,
        pullRequestHandler, handleCommentCreated, h]
  | prClosed input =>
      simp only [ContinuingEvent.key] at h
      simp [ContinuingEvent.toBody, ContinuingEvent.key,
        pullRequestHandler, handleClosed, h]

/-- Claim C1: for every Opening event (discriminator `opened`) whose
dispatch succeeds (top-level send and reviewers follow-up both succeed)
and whose store write succeeds, the run performs exactly one binding
write, keyed by the correlation key, whose stored thread handle is the
timestamp returned by the top-level send; reading the key back from the
resulting store yields that same handle, and the request answers 200. -/
theorem opened_creates_single_binding (env : SlackEnv) (store : Store)
    (input : OpenPullRequest) (ts : String)
    (hsend : env.sendMessage input = Except.ok ts)
    (hrev : env.sendThreadReviewers ts
      (input.pullRequest.requestedReviewers.map Reviewer.login) = Except.ok ())
    (hins : env.insertOk ⟨correlationKey input.pullRequest.id, input.number, ts⟩ = true) :
    (pullRequestHandler env store
        (ParsedBody.envelope (some "opened") (some input) none none none)).http
      = HttpResult.response 200 webhookDoneBody ∧
    (pullRequestHandler env store
        (ParsedBody.envelope (some "opened") (some input) none none none)).storeOps
      = [StoreOp.put ⟨correlationKey input.pullRequest.id, input.number, ts⟩] ∧
    storeGet (pullRequestHandler env store
        (ParsedBody.envelope (some "opened") (some input) none none none)).store
        (correlationKey input.pullRequest.id)
      = some ts := by
  have hput := storeGet_storePut store ⟨correlationKey input.pullRequest.id, input.number, ts⟩
  by_cases hl : input.pullRequest.requestedReviewers.length > 0
  · simp [pullRequestHandler, handleOpened, insertAndRespond, hsend, hrev, hins, hl, hput]
  · simp [pullRequestHandler, handleOpened, insertAndRespond, hsend, hins, hl, hput]

/-- Witness for C1 at a concrete opened event with two reviewers and an
empty store. -/
theorem opened_creates_single_binding_witness :
    sampleEnv.sendMessage sampleOpenInputReviewers = Except.ok "ts0" ∧
    sampleEnv.sendThreadReviewers "ts0"
      (sampleOpenInputReviewers.pullRequest.requestedReviewers.map Reviewer.login)
      = Except.ok () ∧
    sampleEnv.insertOk
      ⟨correlationKey sampleOpenInputReviewers.pullRequest.id,
        sampleOpenInputReviewers.number, "ts0"⟩ = true ∧
    ((pullRequestHandler sampleEnv []
        (ParsedBody.envelope (some "opened") (some sampleOpenInputReviewers) none none none)).http
      = HttpResult.response 200 webhookDoneBody ∧
    (pullRequestHandler sampleEnv []
        (ParsedBody.envelope (some "opened") (some sampleOpenInputReviewers) none none none)).storeOps
      = [StoreOp.put ⟨correlationKey sampleOpenInputReviewers.pullRequest.id,
          sampleOpenInputReviewers.number, "ts0"⟩] ∧
    storeGet (pullRequestHandler sampleEnv []
        (ParsedBody.envelope (some "opened") (some sampleOpenInputReviewers) none none none)).store
        (correlationKey sampleOpenInputReviewers.pullRequest.id)
      = some "ts0") :=
  ⟨rfl, rfl, rfl,
    opened_creates_single_binding sampleEnv [] sampleOpenInputReviewers "ts0" rfl rfl rfl⟩

/-- Claim C2: for every Continuing event whose correlation key has a prior
binding, the threaded reply is invoked with that binding's thread handle,
the only store operation is the read, and the store is not written (it is
unchanged). -/
theorem continuing_reply_uses_binding (env : SlackEnv) (store : Store)
    (e : ContinuingEvent) (ts : String) (h : storeGet store e.key = some ts) :
    (pullRequestHandler env store e.toBody).slackCalls = [e.reply ts] ∧
    (pullRequestHandler env store e.toBody).storeOps = [StoreOp.get e.key] ∧
    (pullRequestHandler env store e.toBody).store = store :=
  continuing_found_run env store e ts h

/-- Witness for C2 at a concrete review-requested event against a store
binding pull request 42 to timestamp 111.222. -/
theorem continuing_reply_uses_binding_witness :
    storeGet sampleStore (ContinuingEvent.reviewRequested sampleReviewInput).key
      = some "111.222" ∧
    ((pullRequestHandler sampleEnv sampleStore
        (ContinuingEvent.reviewRequested sampleReviewInput).toBody).slackCalls
      = [(ContinuingEvent.reviewRequested sampleReviewInput).reply "111.222"] ∧
    (pullRequestHandler sampleEnv sampleStore
        (ContinuingEvent.reviewRequested sampleReviewInput).toBody).storeOps
      = [StoreOp.get (ContinuingEvent.reviewRequested sampleReviewInput).key] ∧
    (pullRequestHandler sampleEnv sampleStore
        (ContinuingEvent.reviewRequested sampleReviewInput).toBody).store
      = sampleStore) :=
  ⟨rfl, continuing_reply_uses_binding sampleEnv sampleStore
    (ContinuingEvent.reviewRequested sampleReviewInput) "111.222" rfl⟩

/-- Claim C3: for every Continuing event whose correlation key has no
prior binding, the request answers 500 (the ThreadNotFound failure), no
Slack message is sent, and the store is unchanged (no implicit thread
creation). -/
theorem continuing_no_binding_fails (env : SlackEnv) (store : Store)
    (e : ContinuingEvent) (h : storeGet store e.key = none) :
    (pullRequestHandler env store e.toBody).http
      = HttpResult.response 500 "Internal Server Error" ∧
    (pullRequestHandler env store e.toBody).slackCalls = [] ∧
    (pullRequestHandler env store e.toBody).store = store := by
  rw [continuing_notfound_run env store e h]
  exact ⟨rfl, rfl, rfl⟩

/-- Witness for C3 at a concrete comment event for pull request 99, which
the sample store has never bound. -/
theorem continuing_no_binding_fails_witness :
    storeGet sampleStore (ContinuingEvent.commentCreated ⟨99⟩).key = none ∧
    ((pullRequestHandler sampleEnv sampleStore
        (ContinuingEvent.commentCreated ⟨99⟩).toBody).http
      = HttpResult.response 500 "Internal Server Error" ∧
    (pullRequestHandler sampleEnv sampleStore
        (ContinuingEvent.commentCreated ⟨99⟩).toBody).slackCalls = [] ∧
    (pullRequestHandler sampleEnv sampleStore
        (ContinuingEvent.commentCreated ⟨99⟩).toBody).store = sampleStore) :=
  ⟨rfl, continuing_no_binding_fails sampleEnv sampleStore
    (ContinuingEvent.commentCreated ⟨99⟩) rfl⟩

/-- Claim C4: for every well-formed envelope whose discriminator matches
none of the four known variants, the request answers 200 with the
`Webhook done.` body, with no store operations and no Slack calls. -/
theorem unknown_action_noop (env : SlackEnv) (store : Store) (a : String)
    (openPayload : Option OpenPullRequest) (reviewPayload : Option ReviewRequestPullRequest)
    (commentPayload : Option CommentPullRequest) (closedPayload : Option ClosedPullRequest)
    (h1 : a ≠ "opened") (h2 : a ≠ "review_requested")
    (h3 : a ≠ "created") (h4 : a ≠ "closed") :
    pullRequestHandler env store
        (ParsedBody.envelope (some a) openPayload reviewPayload commentPayload closedPayload)
      = ⟨HttpResult.response 200 webhookDoneBody, [], [], store⟩ := by
  simp [pullRequestHandler, h1, h2, h3, h4]

/-- Witness for C4 at the concrete unknown discriminator `labeled`. -/
theorem unknown_action_noop_witness :
    ("labeled" ≠ "opened" ∧ "labeled" ≠ "review_requested" ∧
      "labeled" ≠ "created" ∧ "labeled" ≠ "closed") ∧
    pullRequestHandler sampleEnv sampleStore
        (ParsedBody.envelope (some "labeled") none none none none)
      = ⟨HttpResult.response 200 webhookDoneBody, [], [], sampleStore⟩ :=
  ⟨by decide,
    unknown_action_noop sampleEnv sampleStore "labeled" none none none none
      (by decide) (by decide) (by decide) (by decide)⟩

/-- Claim C5 (failing input): an envelope that parses as a JSON object but
whose `action` key is absent or not a string reaches `log.Fatal` at line
56 of the source, aborting the whole process instead of answering HTTP
400 as the claim states. -/
theorem missing_action_discriminator_aborts :
    pullRequestHandler sampleEnv sampleStore (ParsedBody.envelope none none none none none)
      = ⟨HttpResult.fatal, [], [], sampleStore⟩ := rfl

/-- Claim C6: for every Opening event with at least one requested
reviewer, if the threaded reviewers follow-up fails then the request
answers 500, no store operation is performed, and the store is unchanged
(no binding persisted for a half-dispatched thread). -/
theorem opened_followup_failure_no_binding (env : SlackEnv) (store : Store)
    (input : OpenPullRequest) (ts : String)
    (hsend : env.sendMessage input = Except.ok ts)
    (hne : input.pullRequest.requestedReviewers ≠ [])
    (hfail : env.sendThreadReviewers ts
      (input.pullRequest.requestedReviewers.map Reviewer.login) = Except.error ()) :
    (pullRequestHandler env store
        (ParsedBody.envelope (some "opened") (some input) none none none)).http
      = HttpResult.response 500 "Internal Server Error" ∧
    (pullRequestHandler env store
        (ParsedBody.envelope (some "opened") (some input) none none none)).storeOps = [] ∧
    (pullRequestHandler env store
        (ParsedBody.envelope (some "opened") (some input) none none none)).store = store := by
  have hl : input.pullRequest.requestedReviewers.length > 0 := List.length_pos.mpr hne
  simp [pullRequestHandler, handleOpened, hsend, hfail, hl]

/-- Witness for C6 at a concrete opened event with two reviewers in an
environment whose reviewers follow-up fails. -/
theorem opened_followup_failure_no_binding_witness :
    failReviewersEnv.sendMessage sampleOpenInputReviewers = Except.ok "ts0" ∧
    sampleOpenInputReviewers.pullRequest.requestedReviewers ≠ [] ∧
    failReviewersEnv.sendThreadReviewers "ts0"
      (sampleOpenInputReviewers.pullRequest.requestedReviewers.map Reviewer.login)
      = Except.error () ∧
    ((pullRequestHandler failReviewersEnv []
        (ParsedBody.envelope (some "opened") (some sampleOpenInputReviewers) none none none)).http
      = HttpResult.response 500 "Internal Server Error" ∧
    (pullRequestHandler failReviewersEnv []
        (ParsedBody.envelope (some "opened") (some sampleOpenInputReviewers) none none none)).storeOps
      = [] ∧
    (pullRequestHandler failReviewersEnv []
        (ParsedBody.envelope (some "opened") (some sampleOpenInputReviewers) none none none)).store
      = []) :=
  ⟨rfl, by decide, rfl,
    opened_followup_failure_no_binding failReviewersEnv [] sampleOpenInputReviewers "ts0"
      rfl (by decide) rfl⟩

/-- Claim C7: for every Opening event for which the dispatch succeeds but
the store write fails, the request answers 500 (the PersistenceFailure),
the already-sent top-level message stays in the call trace (nothing is
rolled back or compensated), and the store is unchanged. -/
theorem opened_persist_failure_reported (env : SlackEnv) (store : Store)
    (input : OpenPullRequest) (ts : String)
    (hsend : env.sendMessage input = Except.ok ts)
    (hrev : env.sendThreadReviewers ts
      (input.pullRequest.requestedReviewers.map Reviewer.login) = Except.ok ())
    (hins : env.insertOk ⟨correlationKey input.pullRequest.id, input.number, ts⟩ = false) :
    (pullRequestHandler env store
        (ParsedBody.envelope (some "opened") (some input) none none none)).http
      = HttpResult.response 500 "Internal Server Error" ∧
    SlackCall.sendMessage input ∈
      (pullRequestHandler env store
        (ParsedBody.envelope (some "opened") (some input) none none none)).slackCalls ∧
    (pullRequestHandler env store
        (ParsedBody.envelope (some "opened") (some input) none none none)).store = store := by
  by_cases hl : input.pullRequest.requestedReviewers.length > 0
  · simp [pullRequestHandler, handleOpened, insertAndRespond, hsend, hrev, hins, hl]
  · simp [pullRequestHandler, handleOpened, insertAndRespond, hsend, hins, hl]

/-- Witness for C7 at a concrete opened event in an environment whose
store insert fails. -/
theorem opened_persist_failure_reported_witness :
    failInsertEnv.sendMessage sampleOpenInput = Except.ok "ts0" ∧
    failInsertEnv.sendThreadReviewers "ts0"
      (sampleOpenInput.pullRequest.requestedReviewers.map Reviewer.login) = Except.ok () ∧
    failInsertEnv.insertOk
      ⟨correlationKey sampleOpenInput.pullRequest.id, sampleOpenInput.number, "ts0"⟩
      = false ∧
    ((pullRequestHandler failInsertEnv sampleStore
        (ParsedBody.envelope (some "opened") (some sampleOpenInput) none none none)).http
      = HttpResult.response 500 "Internal Server Error" ∧
    SlackCall.sendMessage sampleOpenInput ∈
      (pullRequestHandler failInsertEnv sampleStore
        (ParsedBody.envelope (some "opened") (some sampleOpenInput) none none none)).slackCalls ∧
    (pullRequestHandler failInsertEnv sampleStore
        (ParsedBody.envelope (some "opened") (some sampleOpenInput) none none none)).store
      = sampleStore) :=
  ⟨rfl, rfl, rfl,
    opened_persist_failure_reported failInsertEnv sampleStore sampleOpenInput "ts0"
      rfl rfl rfl⟩

/-- Claim C8: resolution is idempotent. Running the handler on a
Continuing event whose key is bound to a handle, and then running it
again on the store the first run left behind (which is the same store),
makes the threaded reply with the same thread handle both times. -/
theorem continuing_resolution_idempotent (env : SlackEnv) (store : Store)
    (e : ContinuingEvent) (ts : String) (h : storeGet store e.key = some ts) :
    (pullRequestHandler env store e.toBody).slackCalls = [e.reply ts] ∧
    (pullRequestHandler env (pullRequestHandler env store e.toBody).store e.toBody).slackCalls
      = [e.reply ts] := by
  obtain ⟨hc, -, hs⟩ := continuing_found_run env store e ts h
  exact ⟨hc, by rw [hs]; exact hc⟩

/-- Witness for C8 at a concrete review-requested event resolved twice
against the sample store. -/
theorem continuing_resolution_idempotent_witness :
    storeGet sampleStore (ContinuingEvent.reviewRequested sampleReviewInput).key
      = some "111.222" ∧
    ((pullRequestHandler sampleEnv sampleStore
        (ContinuingEvent.reviewRequested sampleReviewInput).toBody).slackCalls
      = [(ContinuingEvent.reviewRequested sampleReviewInput).reply "111.222"] ∧
    (pullRequestHandler sampleEnv
        (pullRequestHandler sampleEnv sampleStore
          (ContinuingEvent.reviewRequested sampleReviewInput).toBody).store
        (ContinuingEvent.reviewRequested sampleReviewInput).toBody).slackCalls
      = [(ContinuingEvent.reviewRequested sampleReviewInput).reply "111.222"]) :=
  ⟨rfl, continuing_resolution_idempotent sampleEnv sampleStore
    (ContinuingEvent.reviewRequested sampleReviewInput) "111.222" rfl⟩

/-- Claim C9: for every Opening event with no requested reviewers whose
send and store write succeed, the run consists of exactly the top-level
send followed by exactly the binding write, and answers 200. -/
theorem opened_no_reviewers_minimal_ops (env : SlackEnv) (store : Store)
    (input : OpenPullRequest) (ts : String)
    (hempty : input.pullRequest.requestedReviewers = [])
    (hsend : env.sendMessage input = Except.ok ts)
    (hins : env.insertOk ⟨correlationKey input.pullRequest.id, input.number, ts⟩ = true) :
    (pullRequestHandler env store
        (ParsedBody.envelope (some "opened") (some input) none none none)).slackCalls
      = [SlackCall.sendMessage input] ∧
    (pullRequestHandler env store
        (ParsedBody.envelope (some "opened") (some input) none none none)).storeOps
      = [StoreOp.put ⟨correlationKey input.pullRequest.id, input.number, ts⟩] ∧
    (pullRequestHandler env store
        (ParsedBody.envelope (some "opened") (some input) none none none)).http
      = HttpResult.response 200 webhookDoneBody := by
  simp [pullRequestHandler, handleOpened, insertAndRespond, hsend, hempty, hins]

/-- Witness for C9 at a concrete opened event with no reviewers. -/
theorem opened_no_reviewers_minimal_ops_witness :
    sampleOpenInput.pullRequest.requestedReviewers = [] ∧
    sampleEnv.sendMessage sampleOpenInput = Except.ok "ts0" ∧
    sampleEnv.insertOk
      ⟨correlationKey sampleOpenInput.pullRequest.id, sampleOpenInput.number, "ts0"⟩
      = true ∧
    ((pullRequestHandler sampleEnv []
        (ParsedBody.envelope (some "opened") (some sampleOpenInput) none none none)).slackCalls
      = [SlackCall.sendMessage sampleOpenInput] ∧
    (pullRequestHandler sampleEnv []
        (ParsedBody.envelope (some "opened") (some sampleOpenInput) none none none)).storeOps
      = [StoreOp.put ⟨correlationKey sampleOpenInput.pullRequest.id,
          sampleOpenInput.number, "ts0"⟩] ∧
    (pullRequestHandler sampleEnv []
        (ParsedBody.envelope (some "opened") (some sampleOpenInput) none none none)).http
      = HttpResult.response 200 webhookDoneBody) :=
  ⟨rfl, rfl, rfl,
    opened_no_reviewers_minimal_ops sampleEnv [] sampleOpenInput "ts0" rfl rfl rfl⟩

/-- Claim C10: for every review-requested event that resolves successfully
and whose threaded send succeeds, exactly one threaded reviewer message is
sent, and its reviewer list holds exactly the single requested reviewer's
login; the request answers 200. -/
theorem review_requested_single_reviewer_message (env : SlackEnv) (store : Store)
    (input : ReviewRequestPullRequest) (ts : String)
    (h : storeGet store (correlationKey input.pullRequestId) = some ts)
    (hsend : env.sendThreadReviewers ts [input.requestedReviewer.login] = Except.ok ()) :
    (pullRequestHandler env store
        (ParsedBody.envelope (some "review_requested") none (some input) none none)).slackCalls
      = [SlackCall.sendThreadReviewers ts [input.requestedReviewer.login]] ∧
    (pullRequestHandler env store
        (ParsedBody.envelope (some "review_requested") none (some input) none none)).http
      = HttpResult.response 200 webhookDoneBody := by
  simp [pullRequestHandler, handleReviewRequested, h, hsend]

/-- Witness for C10 at the concrete review-requested event for pull
request 42 against the sample store. -/
theorem review_requested_single_reviewer_message_witness :
    storeGet sampleStore (correlationKey sampleReviewInput.pullRequestId)
      = some "111.222" ∧
    sampleEnv.sendThreadReviewers "111.222" [sampleReviewInput.requestedReviewer.login]
      = Except.ok () ∧
    ((pullRequestHandler sampleEnv sampleStore
        (ParsedBody.envelope (some "review_requested") none (some sampleReviewInput) none none)).slackCalls
      = [SlackCall.sendThreadReviewers "111.222" [sampleReviewInput.requestedReviewer.login]] ∧
    (pullRequestHandler sampleEnv sampleStore
        (ParsedBody.envelope (some "review_requested") none (some sampleReviewInput) none none)).http
      = HttpResult.response 200 webhookDoneBody) :=
  ⟨rfl, rfl,
    review_requested_single_reviewer_message sampleEnv sampleStore sampleReviewInput
      "111.222" rfl rfl⟩
